import Mathlib

/-
Verification of the pypicokey host-side client stack (picokey package).

The development shallowly embeds the control flow of `PicoKey.send`,
`PicoKey.__init__`, `PicoKey.close`, and the `RescuePicoKey` USB driver
(`powerOn`, `powerOff`, `transmit`, `close`) as executable Lean functions.
External collaborators (the smartcard reader library, the USB stack, the
`ICCD` command class and the `SecureChannel` cryptography, none of which
are part of the embedded core) appear as oracle parameters: scripted
transmit outcomes, reader card-presence flags, abstract wrap/unwrap
functions, and boolean failure switches.
-/

set_option autoImplicit false

deriving instance DecidableEq for Except

namespace Picokey

/-! ## Enumerations (PicoKey.py lines 34-49) -/

/-- Platform enumeration from PicoKey.py: RP2040 = 0, RP2350 = 1, ESP32 = 2,
EMULATION = 3. -/
inductive Platform where
  | RP2040
  | RP2350
  | ESP32
  | EMULATION
  deriving DecidableEq, Repr

/-- Python `Platform(value)` conversion: raises ValueError (modelled as `none`)
when the value is not a member. -/
def Platform.ofNat? : Nat → Option Platform
  | 0 => some .RP2040
  | 1 => some .RP2350
  | 2 => some .ESP32
  | 3 => some .EMULATION
  | _ => none

/-- Product enumeration from PicoKey.py: UNKNOWN = 0, HSM = 1, FIDO = 2,
OPENPGP = 3. -/
inductive Product where
  | UNKNOWN
  | HSM
  | FIDO
  | OPENPGP
  deriving DecidableEq, Repr

/-- Python `Product(value)` conversion. -/
def Product.ofNat? : Nat → Option Product
  | 0 => some .UNKNOWN
  | 1 => some .HSM
  | 2 => some .FIDO
  | 3 => some .OPENPGP
  | _ => none

/-- ConnectionType enumeration from PicoKey.py: UNKNOWN = 0, SMARTCARD = 1,
RESCUE = 2. -/
inductive ConnectionType where
  | UNKNOWN
  | SMARTCARD
  | RESCUE
  deriving DecidableEq, Repr

/-! ## RescuePicoKey driver state (RescuePicoKey.py)

`__dev` is abstracted to the flag `devOpen` (dev is not None), `__active` is
the Python tri-state None/True/False, and the counters record how many
ICCD `IccPowerOn` / `IccPowerOff` commands have been handed to the (external)
ICCD class.  ICCD command failures are modelled by boolean switches. -/

/-- Exceptions raised inside the RescuePicoKey driver: the structured
`RescuePicoKeyInvalidStateError` transport error versus the unstructured Python
`IndexError` from sequence indexing. -/
inductive RErr where
  | invalidState
  | indexError
  deriving DecidableEq, Repr

/-- State of a `RescuePicoKey` instance: whether `__dev` is bound, the
tri-state `__active` flag (`none` = Python None), and counters of ICCD
power commands issued so far. -/
structure RescueState where
  devOpen : Bool
  active : Option Bool
  powerOnCmds : Nat
  powerOffCmds : Nat
  deriving DecidableEq, Repr

/-- RescuePicoKey.powerOn (lines 163-168).  Python guard `if (not
self.__active)` fires when `__active` is None or False.  The flag is set to
True BEFORE `IccPowerOn()` is issued, so a failing power-on command (switch
`cmdFails`) still leaves the device recorded as powered.  The second
component is the raised exception, if any. -/
def powerOnM (cmdFails : Bool) (s : RescueState) : RescueState × Option RErr :=
  if s.active = some true then (s, none)
  else
    let s1 : RescueState := { s with active := some true }
    let s2 : RescueState := { s1 with powerOnCmds := s1.powerOnCmds + 1 }
    if cmdFails then (s2, some .invalidState) else (s2, none)

/-- RescuePicoKey.powerOff (lines 170-176).  Python guard `if (self.__active
or self.__active is None)`: fires when `__active` is True or None, not when
False.  `IccPowerOff()` is issued before `__active = False`, so on a failing
command (switch `cmdFails`) the flag is not cleared. -/
def powerOffM (cmdFails : Bool) (s : RescueState) : RescueState × Option RErr :=
  if s.active = some true ∨ s.active = none then
    let s1 : RescueState := { s with powerOffCmds := s.powerOffCmds + 1 }
    if cmdFails then (s1, some .invalidState)
    else ({ s1 with active := some false }, none)
  else (s, none)

/-- RescuePicoKey.transmit (lines 178-182).  If not active, auto power-on
first (propagating its failure).  `rapdu` is the raw reply produced by the
external `ICCD.SendApdu`; the return value is
`(rapdu[:-2], rapdu[-2], rapdu[-1])`.  Python negative indexing raises
IndexError when the reply is shorter than 2 bytes (`rapdu[:-2]` alone would
give `[]`). -/
def rtransmitM (powerOnFails : Bool) (rapdu : List Nat) (s : RescueState) :
    RescueState × Except RErr (List Nat × Nat × Nat) :=
  let step : RescueState × Option RErr :=
    if s.active = some true then (s, none) else powerOnM powerOnFails s
  match step with
  | (s1, some e) => (s1, .error e)
  | (s1, none) =>
    if 2 ≤ rapdu.length then
      (s1, .ok (rapdu.take (rapdu.length - 2),
                rapdu.getD (rapdu.length - 2) 0,
                rapdu.getD (rapdu.length - 1) 0))
    else (s1, .error .indexError)

/-- RescuePicoKey.close (lines 108-114): dispose resources only when `__dev`
is bound, then clear it; never raises. -/
def rcloseM (s : RescueState) : RescueState :=
  if s.devOpen then { s with devOpen := false } else s

/-! ## PicoKey.close (PicoKey.py lines 201-225) -/

/-- The object bound to `self.__card`: a rescue USB driver or a smartcard
connection (whose `disconnect`/`release` may raise, but those errors are
swallowed by `close`). -/
inductive PKCard where
  | rescue (s : RescueState)
  | smartcard (disconnectFails : Bool)
  deriving DecidableEq, Repr

/-- The session fields touched by `close`: `__card`, `__monitor`,
`__observer` (each abstracted to presence). -/
structure PKState where
  card : Option PKCard
  monitor : Bool
  observer : Bool
  deriving DecidableEq, Repr

/-- Exception from `PicoKey.close`: the only way it can raise is the
unguarded `self.__monitor.stop()` on a rescue card when `__monitor` is None
(AttributeError). -/
inductive CloseErr where
  | attrError
  deriving DecidableEq, Repr

/-- PicoKey.close (lines 201-225).  `if (not self.__card): return`; on a
rescue card: `self.__monitor.stop()` (AttributeError when the monitor is
absent), clear monitor/observer, `self.__card.close()`; on a smartcard:
clear monitor/observer only when both are present, then
disconnect/release inside try/except (errors swallowed).  Finally
`self.__card = None`. -/
def pkClose (s : PKState) : Except CloseErr PKState :=
  match s.card with
  | none => .ok s
  | some (.rescue _) =>
    if s.monitor then
      .ok { card := none, monitor := false, observer := false }
    else .error .attrError
  | some (.smartcard _) =>
    if s.monitor ∧ s.observer then
      .ok { card := none, monitor := false, observer := false }
    else
      .ok { card := none, monitor := s.monitor, observer := s.observer }

/-! ## Applet selection during construction (PicoKey.py lines 176-188)

`select_applet(rescue=True)` goes through `PicoKey.transmit`, which returns
`(resp, sw1, sw2)` on success, converts transport exceptions to
`PicoKeyInvalidStateError` (or raises `PicoKeyNotFoundError` with no card);
the underlying card object may itself raise `APDUResponse`.  The outcome of
the selection call is the oracle input below. -/

/-- Outcome of the `select_applet(rescue=True)` call made by `__init__`:
a returned triple, a raised `APDUResponse(sw1, sw2)`, or any other raised
exception (e.g. the `PicoKeyInvalidStateError` produced by
`PicoKey.transmit` for transport faults). -/
inductive SelectOutcome where
  | ok (resp : List Nat) (sw1 sw2 : Nat)
  | apduError (sw1 sw2 : Nat)
  | otherError
  deriving DecidableEq, Repr

/-- The identity attributes of a Session. -/
structure Identity where
  platform : Platform
  product : Product
  version : Nat × Nat
  deriving DecidableEq, Repr

/-- How `__init__` leaves the identity attributes. -/
inductive InitIdentityResult where
  | set (i : Identity)
  | unset
  | aborted
  deriving DecidableEq, Repr

/-- PicoKey.__init__ lines 176-188: the `try` around applet selection
catches ONLY `APDUResponse` (baseline identity); with a returned status of
exactly 0x90 0x00 the attributes are decoded from `resp[0..3]` (IndexError
or enum ValueError aborts the constructor); any other returned status leaves
the attributes unassigned; any other exception propagates (constructor
aborts). -/
def initIdentity : SelectOutcome → InitIdentityResult
  | .apduError _ _ => .set ⟨.RP2040, .UNKNOWN, (0, 0)⟩
  | .otherError => .aborted
  | .ok resp sw1 sw2 =>
    if sw1 = 0x90 ∧ sw2 = 0x00 then
      match resp.get? 0, resp.get? 1, resp.get? 2, resp.get? 3 with
      | some a, some b, some c, some d =>
        match Platform.ofNat? a, Product.ofNat? b with
        | some pl, some pr => .set ⟨pl, pr, (c, d)⟩
        | _, _ => .aborted
      | _, _, _, _ => .aborted
    else .unset

/-! ## Connection establishment (PicoKey.py lines 79-175)

The smartcard reader list is abstracted to `rdrs : List Bool` (whether each
bounded-time probe of each reader yields a card-holding connection), and the
rescue-mode discovery (`RescuePicoKey()` + `RescueMonitor` construction) to
the switch `rescueOk`. -/

/-- Construction-time errors of `PicoKey.__init__` before applet selection:
the plain `Exception` (slot number out of range), the plain
`Exception` (no card in reader slot), and
`PicoKeyNotFoundError` (time-out: no card inserted). -/
inductive InitConnErr where
  | slotOutOfRange
  | noCardInSlot
  | notFound
  deriving DecidableEq, Repr

/-- Connection-phase outcome: the `__connection_type` field, whether the
bound card is the rescue driver, and whether a removal monitor/observer pair
was registered. -/
structure ConnResult where
  connType : ConnectionType
  cardIsRescue : Bool
  monitorRegistered : Bool
  deriving DecidableEq, Repr

/-- PicoKey.__init__ lines 79-175.  Unless rescue is forced: when at least
one reader exists, a non-negative slot index `≥ len(rdrs)` raises; a
non-negative in-range slot probes only that reader — on success the card is
bound but `__connection_type` and the monitor are NOT touched (they keep
their initial UNKNOWN/None values), on failure the no-card-in-reader-slot `Exception` is raised; with a negative slot the readers are scanned in
order and the first card-holding one sets SMARTCARD and registers the card
monitor.  If no card was bound, rescue discovery runs; its failure raises
`PicoKeyNotFoundError`. -/
def initConnect (forceRescue : Bool) (slot : Int) (rdrs : List Bool)
    (rescueOk : Bool) : Except InitConnErr ConnResult :=
  let smartcardPhase : Except InitConnErr (Option ConnResult) :=
    if forceRescue then .ok none
    else if 0 < rdrs.length then
      if 0 ≤ slot ∧ (rdrs.length : Int) ≤ slot then .error .slotOutOfRange
      else if 0 ≤ slot ∧ slot < (rdrs.length : Int) then
        if rdrs.getD slot.toNat false then
          .ok (some ⟨.UNKNOWN, false, false⟩)
        else .error .noCardInSlot
      else
        match (List.range rdrs.length).find? (fun i => rdrs.getD i false) with
        | some _ => .ok (some ⟨.SMARTCARD, false, true⟩)
        | none => .ok none
    else .ok none
  match smartcardPhase with
  | .error e => .error e
  | .ok (some r) => .ok r
  | .ok none =>
    if rescueOk then .ok ⟨.RESCUE, true, true⟩
    else .error .notFound

/-! ## Command framing and PicoKey.send (PicoKey.py lines 238-308)

The card transport is scripted: each call to `self.__card.transmit`
consumes the next `TxOutcome` of the list (an empty script also behaves as
a raised exception).  `self.__card.reconnect()` succeeding or raising is
the switch `reconnectOk`.  The SecureChannel object (whose implementation
lives outside the embedded core) is an abstract wrap/unwrap pair. -/

/-- One scripted result of a `self.__card.transmit(apdu)` call: a returned
`(response, sw1, sw2)` triple, or a raised exception. -/
inductive TxOutcome where
  | ok (resp : List Nat) (sw1 sw2 : Nat)
  | raise
  deriving DecidableEq, Repr

/-- Abstract SecureChannel contract: `wrap_apdu` and `unwrap_rapdu`. -/
structure SCm where
  wrap : List Nat → List Nat
  unwrap : List Nat → List Nat × Nat

/-- Errors escaping `PicoKey.send`: `PicoKeyNotFoundError` (no device connected),
`PicoKeyNotFoundError` (reconnection failed),
`PicoKeyInvalidStateError` (APDU transmission error after reconnect),
`APDUResponse(sw1, sw2)`, and any unconverted exception (overflow while
framing, or a transport exception inside the GET RESPONSE loop, which is
outside the try block). -/
inductive SendErr where
  | noDevice
  | reconnectFailed
  | invalidState
  | apduResponse (sw1 sw2 : Nat)
  | rawExc
  deriving DecidableEq, Repr

/-- Observable interaction of one `send` call with the transport: the exact
frames handed to `self.__card.transmit` in order, the number of
`reconnect()` attempts, and whether `self.close()` ran. -/
structure SendTrace where
  frames : List (List Nat)
  reconnects : Nat
  closed : Bool
  deriving DecidableEq, Repr

/-- The `command` argument of `send`: an int opcode or (despite the type
annotation) a list opcode selector. -/
inductive CmdArg where
  | int (n : Nat)
  | list (l : List Nat)
  deriving DecidableEq, Repr

/-- Python `n.to_bytes(2, big-endian)`: raises OverflowError (modelled `none`)
unless `n < 65536`. -/
def toBytes2 (n : Nat) : Option (List Nat) :=
  if n < 65536 then some [n / 256, n % 256] else none

/-- send lines 243-249: `if (data): lc = [0x00] + list(len(data).to_bytes(2, big-endian))` — Python truthiness makes both `None` and `[]` take the else
branch, whose `[0x00*3]` evaluates to the SINGLE byte list `[0]`. -/
def buildLc : Option (List Nat) → Option (List Nat)
  | some (x :: xs) => (toBytes2 (x :: xs).length).map (fun b => 0x00 :: b)
  | _ => some [0x00]

/-- send lines 244-247: `dataf = list(data)` when data is truthy, else `[]`. -/
def buildDataf : Option (List Nat) → List Nat
  | some (x :: xs) => x :: xs
  | _ => []

/-- send lines 250-253: `le = [0x00, 0x00]` when `ne is None`, else
`list(ne.to_bytes(2, big-endian))`. -/
def buildLe : Option Nat → Option (List Nat)
  | none => some [0x00, 0x00]
  | some n => toBytes2 n

/-- send lines 254-257: `apdu = command` when it is a list longer than 1,
else `apdu = [cla, command]`.  (For a list of length ≤ 1 the Python builds
the ill-typed `[cla, <list>]`, which no transport accepts; modelled as
`none`, i.e. a downstream unstructured failure.) -/
def buildHead : CmdArg → Nat → Option (List Nat)
  | .int n, cla => some [cla, n]
  | .list l, _ => if 1 < l.length then some l else none

/-- send lines 243-259: the assembled plaintext frame
`apdu + [p1, p2] + lc + dataf + le`. -/
def buildApdu (command : CmdArg) (cla p1 p2 : Nat) (ne : Option Nat)
    (data : Option (List Nat)) : Option (List Nat) :=
  match buildHead command cla, buildLc data, buildLe ne with
  | some hd, some lc, some le => some (hd ++ [p1, p2] ++ lc ++ buildDataf data ++ le)
  | _, _, _ => none

/-- send lines 293-299: the GET RESPONSE loop `while (sw1 == 0x61)`.
Arguments: remaining script, the current `sw2`, accumulated payload.
Returns the loop outcome (`.error ()` = an exception raised by a transmit
inside the loop, which send does not catch) and the frames handed to the
transport by the loop. -/
def getResponse : List TxOutcome → Nat → List Nat →
    Except Unit (List Nat × Nat × Nat) × List (List Nat)
  | [], sw2, _ => (.error (), [[0x00, 0xC0, 0x00, 0x00, sw2]])
  | .raise :: _, sw2, _ => (.error (), [[0x00, 0xC0, 0x00, 0x00, sw2]])
  | .ok r a b :: rest, sw2, acc =>
    if a = 0x61 then
      let out := getResponse rest b (acc ++ r)
      (out.1, [0x00, 0xC0, 0x00, 0x00, sw2] :: out.2)
    else (.ok (acc ++ r, a, b), [[0x00, 0xC0, 0x00, 0x00, sw2]])

/-- send lines 300-301: `if (code not in codes and code != 0x9000): raise
APDUResponse(sw1, sw2)`, where `code = sw1 << 8 | sw2` for the (possibly
post-chaining) status pair. -/
def checkCode (codes : List Nat) (resp : List Nat) (sw1 sw2 : Nat)
    (fs : List (List Nat)) :
    Except SendErr (List Nat × Nat × Nat) × List (List Nat) :=
  let code := sw1 <<< 8 ||| sw2
  if codes.contains code = false ∧ code ≠ 0x9000 then
    (.error (.apduResponse sw1 sw2), fs)
  else (.ok (resp, sw1, sw2), fs)

/-- send lines 283-301: the status-word policy applied to the first reply.
When `sw1 != 0x90`: the `0x63Cx` arm is a bare `pass` (control still falls
through to the final code check); the `0x61` arm discards the initial
payload and runs the GET RESPONSE loop; every arm then reaches the
`code not in codes` check.  When `sw1 == 0x90` nothing is checked. -/
def processStatus (codes : List Nat) (resp : List Nat) (sw1 sw2 : Nat)
    (rest : List TxOutcome) :
    Except SendErr (List Nat × Nat × Nat) × List (List Nat) :=
  if sw1 ≠ 0x90 then
    if sw1 = 0x63 ∧ sw2 &&& 0xF0 = 0xC0 then
      checkCode codes resp sw1 sw2 []
    else if sw1 = 0x61 then
      match getResponse rest sw2 [] with
      | (.error _, fs) => (.error .rawExc, fs)
      | (.ok (r2, a, b), fs) => checkCode codes r2 a b fs
    else checkCode codes resp sw1 sw2 []
  else (.ok (resp, sw1, sw2), [])

/-- send lines 266-281: first `transmit` attempt; on any exception try
`reconnect()` — if reconnect raises, `self.close()` then
`PicoKeyNotFoundError`; else retry the SAME frame once — a second exception
becomes `PicoKeyInvalidStateError`.  Returns the reply plus the unconsumed
script, and the transport trace so far. -/
def firstTransmit (reconnectOk : Bool) (script : List TxOutcome)
    (apdu : List Nat) :
    Except SendErr (List Nat × Nat × Nat × List TxOutcome) × SendTrace :=
  match script with
  | .ok r a b :: rest => (.ok (r, a, b, rest), ⟨[apdu], 0, false⟩)
  | .raise :: rest =>
    if reconnectOk then
      match rest with
      | .ok r a b :: rest2 => (.ok (r, a, b, rest2), ⟨[apdu, apdu], 1, false⟩)
      | _ => (.error .invalidState, ⟨[apdu, apdu], 1, false⟩)
    else (.error .reconnectFailed, ⟨[apdu], 1, true⟩)
  | [] =>
    if reconnectOk then (.error .invalidState, ⟨[apdu, apdu], 1, false⟩)
    else (.error .reconnectFailed, ⟨[apdu], 1, true⟩)

/-- send lines 302-308: after the raw status policy, when a SecureChannel is
installed the response is unwrapped and the UNWRAPPED code is checked
against `codes`/0x9000 a second time; the returned code is the unwrapped
one.  Without a channel the raw `(response, code)` pair is returned. -/
def applyUnwrap (sc : Option SCm) (codes : List Nat) (resp : List Nat)
    (sw1 sw2 : Nat) : Except SendErr (List Nat × Nat) :=
  let code := sw1 <<< 8 ||| sw2
  match sc with
  | none => .ok (resp, code)
  | some c =>
    let u := c.unwrap resp
    if codes.contains u.2 = false ∧ u.2 ≠ 0x9000 then
      .error (.apduResponse (u.2 >>> 8) (u.2 &&& 0xFF))
    else .ok u

/-- send lines 262-264: `if (self.__sc): apdu = self.__sc.wrap_apdu(apdu)`. -/
def wrapWith (sc : Option SCm) (apdu : List Nat) : List Nat :=
  match sc with
  | some c => c.wrap apdu
  | none => apdu

/-- PicoKey.send (lines 238-308), end to end: no-device guard, frame
assembly, optional secure-channel wrapping of the assembled frame,
first-transmit with single reconnect-retry, status policy
(warning / GET RESPONSE chaining / accepted-codes check), optional
unwrap with the second code check.  Returns the call outcome together
with the transport interaction trace. -/
def sendModel (hasCard : Bool) (sc : Option SCm) (reconnectOk : Bool)
    (script : List TxOutcome) (command : CmdArg) (cla p1 p2 : Nat)
    (ne : Option Nat) (data : Option (List Nat)) (codes : List Nat) :
    Except SendErr (List Nat × Nat) × SendTrace :=
  if hasCard = false then (.error .noDevice, ⟨[], 0, false⟩)
  else
    match buildApdu command cla p1 p2 ne data with
    | none => (.error .rawExc, ⟨[], 0, false⟩)
    | some apdu0 =>
      let apdu := wrapWith sc apdu0
      match firstTransmit reconnectOk script apdu with
      | (.error e, tr) => (.error e, tr)
      | (.ok (resp, sw1, sw2, rest), tr) =>
        match processStatus codes resp sw1 sw2 rest with
        | (.error e, fs) => (.error e, { tr with frames := tr.frames ++ fs })
        | (.ok (r2, a, b), fs) =>
          (applyUnwrap sc codes r2 a b,
           { tr with frames := tr.frames ++ fs })

-- ===== C1 =====

/-- Claim C1, counterexample: with no data the frame built by send ends in a
SINGLE zero length byte before the two expected-length bytes (the Python
`[0x00*3]` is the one-element list `[0]`), so the claimed three-byte
`00 00 00` length field does not appear: the built frame has 7 bytes, not
the 9 the claim predicts. -/
theorem C1_counterexample :
    buildApdu (.int 0xA4) 0x00 0x01 0x02 none none
      = some [0x00, 0xA4, 0x01, 0x02, 0x00, 0x00, 0x00]
    ∧ some [0x00, 0xA4, 0x01, 0x02, 0x00, 0x00, 0x00]
      ≠ some ([0x00, 0xA4, 0x01, 0x02] ++ [0x00, 0x00, 0x00] ++ [0x00, 0x00]) := by
  decide

/-- Claim C1, amended: for data of length L (0 < L < 65536) the frame is
[CLA, INS, P1, P2] ++ [0x00, LenHi, LenLo] ++ data ++ expected-length
bytes; when data is None the length field is the SINGLE byte 0x00; when ne
is None the trailing bytes are 00 00, and ne = 256 yields 01 00
(`buildLe (some 256) = some [1, 0]` is the n = 256 instance of the
`[n / 256, n % 256]` trailing bytes below). -/
theorem C1_frame_layout :
    ∀ (cmd cla p1 p2 : Nat) (l : List Nat) (n : Nat),
    l ≠ [] → l.length < 65536 → n < 65536 →
    (buildApdu (.int cmd) cla p1 p2 (some n) (some l)
       = some ([cla, cmd, p1, p2, 0x00, l.length / 256, l.length % 256]
               ++ l ++ [n / 256, n % 256]))
    ∧ (buildApdu (.int cmd) cla p1 p2 none (some l)
       = some ([cla, cmd, p1, p2, 0x00, l.length / 256, l.length % 256]
               ++ l ++ [0x00, 0x00]))
    ∧ (buildApdu (.int cmd) cla p1 p2 (some n) none
       = some ([cla, cmd, p1, p2, 0x00] ++ [n / 256, n % 256]))
    ∧ (buildApdu (.int cmd) cla p1 p2 none none
       = some [cla, cmd, p1, p2, 0x00, 0x00, 0x00]) := by
  intro cmd cla p1 p2 l n hl hllen hn
  match l, hl with
  | x :: xs, _ =>
    have h1 : xs.length + 1 < 65536 := by
      simpa using hllen
    refine ⟨?_, ?_, ?_, ?_⟩ <;>
      simp [buildApdu, buildHead, buildLc, buildLe, buildDataf, toBytes2, h1, hn]

/-- Claim C1, witness: the amended frame layout evaluated at a concrete
command with 3 data bytes and ne = 256. -/
theorem C1_frame_layout_witness :
    buildApdu (.int 0xA4) 0x80 0x01 0x02 (some 256) (some [9, 9, 9])
      = some [0x80, 0xA4, 0x01, 0x02, 0x00, 0x00, 0x03, 9, 9, 9, 0x01, 0x00] :=
  ((C1_frame_layout 0xA4 0x80 0x01 0x02 [9, 9, 9] 256 (by decide) (by decide)
      (by decide)).1).trans (by decide)

-- ===== C3 =====

/-- Claim C3, counterexample: when applet selection RETURNS the non-success
status word 0x6A82 (a protocol-level error, but no APDUResponse exception),
the constructor leaves platform/product/version unassigned instead of
setting the claimed baseline values. -/
theorem C3_counterexample :
    initIdentity (.ok [] 0x6A 0x82) = .unset
    ∧ InitIdentityResult.unset
      ≠ .set ⟨.RP2040, .UNKNOWN, (0, 0)⟩ := by
  decide

/-- Claim C3, amended: the constructor survives protocol-level selection
failures, but the baseline identity (lowest platform RP2040, UNKNOWN
product, version (0,0)) is assigned only when the selection RAISES an
APDUResponse error; a returned non-success status word leaves the identity
attributes unassigned (construction still completes). -/
theorem C3_identity_fallback :
    (∀ (resp : List Nat) (sw1 sw2 : Nat), ¬(sw1 = 0x90 ∧ sw2 = 0x00) →
       initIdentity (.ok resp sw1 sw2) = .unset)
    ∧ (∀ a b : Nat, initIdentity (.apduError a b)
         = .set ⟨.RP2040, .UNKNOWN, (0, 0)⟩) := by
  constructor
  · intro resp sw1 sw2 h
    simp [initIdentity, h]
  · intro a b
    rfl

/-- Claim C3, witness: the two amended branches evaluated at status word
0x6A82. -/
theorem C3_identity_fallback_witness :
    initIdentity (.ok [] 0x6A 0x82) = .unset
    ∧ initIdentity (.apduError 0x6A 0x82)
      = .set ⟨.RP2040, .UNKNOWN, (0, 0)⟩ :=
  ⟨C3_identity_fallback.1 [] 0x6A 0x82 (by decide),
   C3_identity_fallback.2 0x6A 0x82⟩

-- ===== C6 =====

/-- Claim C6, code bug: the `pass` arm for the 0x63Cx warning shape is dead
(control falls through to the accepted-codes check), so a 0x63C1 reply with
an empty accepted-codes set RAISES APDUResponse(0x63, 0xC1) instead of
being returned as-is; it is returned only when 0x63C1 is in the set.  The
last two conjuncts confirm the accepted-codes policy the claim states for
0x6A82: rejected when absent from the set, returned with the payload when
present. -/
theorem C6_warning_raises :
    sendModel true none true [TxOutcome.ok [5] 0x63 0xC1] (.int 0x20) 0 0 0 none none []
      = (.error (.apduResponse 0x63 0xC1),
         ⟨[[0x00, 0x20, 0x00, 0x00, 0x00, 0x00, 0x00]], 0, false⟩)
    ∧ sendModel true none true [TxOutcome.ok [5] 0x63 0xC1] (.int 0x20) 0 0 0 none none [0x63C1]
      = (.ok ([5], 0x63C1),
         ⟨[[0x00, 0x20, 0x00, 0x00, 0x00, 0x00, 0x00]], 0, false⟩)
    ∧ sendModel true none true [TxOutcome.ok [] 0x6A 0x82] (.int 0x20) 0 0 0 none none []
      = (.error (.apduResponse 0x6A 0x82),
         ⟨[[0x00, 0x20, 0x00, 0x00, 0x00, 0x00, 0x00]], 0, false⟩)
    ∧ sendModel true none true [TxOutcome.ok [] 0x6A 0x82] (.int 0x20) 0 0 0 none none [0x6A82]
      = (.ok ([], 0x6A82),
         ⟨[[0x00, 0x20, 0x00, 0x00, 0x00, 0x00, 0x00]], 0, false⟩) := by
  refine ⟨?_, ?_, ?_, ?_⟩ <;> decide

-- ===== C8 =====

/-- Claim C8: powerOff is idempotent — the second of two consecutive calls
is a no-op (issuing the ICC power-off command exactly once in total when
the driver was not already powered off), a second PicoKey.close after a
successful close is a no-op that cannot raise, and RescuePicoKey.close
(a total function, hence never raising) is idempotent. -/
theorem C8_idempotence :
    (∀ s : RescueState,
       powerOffM false (powerOffM false s).1 = ((powerOffM false s).1, none))
    ∧ (∀ s : RescueState, s.active ≠ some false →
       ((powerOffM false (powerOffM false s).1).1).powerOffCmds = s.powerOffCmds + 1)
    ∧ (∀ s t : PKState, pkClose s = .ok t → pkClose t = .ok t)
    ∧ (∀ s : RescueState, rcloseM (rcloseM s) = rcloseM s) := by
  refine ⟨?_, ?_, ?_, ?_⟩
  · rintro ⟨d, a, pOn, pOff⟩
    rcases a with _ | b
    · simp [powerOffM]
    · rcases b <;> simp [powerOffM]
  · rintro ⟨d, a, pOn, pOff⟩ h
    rcases a with _ | b
    · simp [powerOffM]
    · rcases b
      · simp at h
      · simp [powerOffM]
  · rintro ⟨card, m, o⟩ t h
    rcases card with _ | c
    · simp [pkClose] at h
      subst h
      rfl
    · rcases c with rs | df
      · rcases m
        · simp [pkClose] at h
        · simp [pkClose] at h
          simp [pkClose, ← h]
      · rcases m
        · rcases o
          · simp [pkClose] at h
            simp [pkClose, ← h]
          · simp [pkClose] at h
            simp [pkClose, ← h]
        · rcases o
          · simp [pkClose] at h
            simp [pkClose, ← h]
          · simp [pkClose] at h
            simp [pkClose, ← h]
  · rintro ⟨d, a, pOn, pOff⟩
    rcases d <;> simp [rcloseM]

/-- Claim C8, witness: idempotence instances at concrete driver/session
states. -/
theorem C8_idempotence_witness :
    powerOffM false (powerOffM false ⟨true, none, 0, 0⟩).1
      = ((powerOffM false ⟨true, none, 0, 0⟩).1, none)
    ∧ ((powerOffM false (powerOffM false ⟨true, none, 0, 0⟩).1).1).powerOffCmds = 1
    ∧ pkClose ⟨some (.rescue ⟨true, some false, 1, 1⟩), true, true⟩
        = .ok ⟨none, false, false⟩
    ∧ pkClose ⟨none, false, false⟩ = .ok ⟨none, false, false⟩
    ∧ rcloseM (rcloseM ⟨true, some false, 1, 1⟩) = rcloseM ⟨true, some false, 1, 1⟩ :=
  ⟨C8_idempotence.1 ⟨true, none, 0, 0⟩,
   C8_idempotence.2.1 ⟨true, none, 0, 0⟩ (by decide),
   by decide,
   C8_idempotence.2.2.1 ⟨some (.rescue ⟨true, some false, 1, 1⟩), true, true⟩
     ⟨none, false, false⟩ (by decide),
   C8_idempotence.2.2.2 ⟨true, some false, 1, 1⟩⟩

-- ===== C9 =====

/-- Claim C9: for a raw ICCD reply of length at least 2,
RescuePicoKey.transmit returns (reply without its last two bytes,
second-to-last byte, last byte); a shorter reply fails with the
unstructured IndexError, never with the structured transport error. -/
theorem C9_transmit_split :
    (∀ (rapdu : List Nat) (s : RescueState), 2 ≤ rapdu.length →
       (rtransmitM false rapdu s).2
         = .ok (rapdu.take (rapdu.length - 2),
                rapdu.getD (rapdu.length - 2) 0,
                rapdu.getD (rapdu.length - 1) 0))
    ∧ (∀ (rapdu : List Nat) (s : RescueState), rapdu.length < 2 →
       (rtransmitM false rapdu s).2 = .error .indexError)
    ∧ (∀ (rapdu : List Nat) (s : RescueState),
       (rtransmitM false rapdu s).2 ≠ .error .invalidState) := by
  have hstep : ∀ s : RescueState,
      (if s.active = some true then (s, none) else powerOnM false s).2 = none := by
    intro s
    split
    · rfl
    · simp [powerOnM]
      split <;> simp
  refine ⟨?_, ?_, ?_⟩
  · intro rapdu s h
    unfold rtransmitM
    cases hs : (if s.active = some true then (s, none) else powerOnM false s) with
    | mk s1 e =>
      have := hstep s
      rw [hs] at this
      subst this
      simp [h]
  · intro rapdu s h
    unfold rtransmitM
    cases hs : (if s.active = some true then (s, none) else powerOnM false s) with
    | mk s1 e =>
      have := hstep s
      rw [hs] at this
      subst this
      simp [Nat.not_le.mpr h]
  · intro rapdu s
    unfold rtransmitM
    cases hs : (if s.active = some true then (s, none) else powerOnM false s) with
    | mk s1 e =>
      have := hstep s
      rw [hs] at this
      subst this
      split <;> simp

/-- Claim C9, witness: the split on a 5-byte reply and the IndexError on a
1-byte reply. -/
theorem C9_transmit_split_witness :
    (rtransmitM false [1, 2, 3, 0x90, 0x00] ⟨true, some true, 1, 1⟩).2
      = .ok ([1, 2, 3], 0x90, 0x00)
    ∧ (rtransmitM false [7] ⟨true, some true, 1, 1⟩).2 = .error .indexError
    ∧ (rtransmitM false [7] ⟨true, some true, 1, 1⟩).2 ≠ .error .invalidState :=
  ⟨(C9_transmit_split.1 [1, 2, 3, 0x90, 0x00] ⟨true, some true, 1, 1⟩
      (by decide)).trans (by decide),
   C9_transmit_split.2.1 [7] ⟨true, some true, 1, 1⟩ (by decide),
   C9_transmit_split.2.2 [7] ⟨true, some true, 1, 1⟩⟩

-- ===== C10 =====

/-- Claim C10: powerOn sets the active flag BEFORE issuing the ICC
power-on command, so when that command fails the driver still records the
device as powered and a subsequent transmit leaves the driver state (in
particular the power-on command counter) untouched — the automatic
power-on is skipped. -/
theorem C10_poweron_flag :
    ∀ s : RescueState, s.active ≠ some true →
      ((powerOnM true s).1.active = some true)
      ∧ ((powerOnM true s).2 = some .invalidState)
      ∧ (∀ (b : Bool) (rapdu : List Nat),
          (rtransmitM b rapdu (powerOnM true s).1).1 = (powerOnM true s).1) := by
  intro s h
  have h1 : (powerOnM true s).1.active = some true := by
    simp [powerOnM, h]
  refine ⟨h1, ?_, ?_⟩
  · simp [powerOnM, h]
  · intro b rapdu
    unfold rtransmitM
    simp only [h1, if_pos]
    split <;> rfl

/-- Claim C10, witness: a failing power-on from the never-powered state. -/
theorem C10_poweron_flag_witness :
    ((powerOnM true ⟨true, none, 0, 0⟩).1.active = some true)
    ∧ ((powerOnM true ⟨true, none, 0, 0⟩).2 = some .invalidState)
    ∧ ((rtransmitM false [1, 2] (powerOnM true ⟨true, none, 0, 0⟩).1).1
        = (powerOnM true ⟨true, none, 0, 0⟩).1) :=
  ⟨(C10_poweron_flag ⟨true, none, 0, 0⟩ (by decide)).1,
   (C10_poweron_flag ⟨true, none, 0, 0⟩ (by decide)).2.1,
   (C10_poweron_flag ⟨true, none, 0, 0⟩ (by decide)).2.2 false [1, 2]⟩

-- ===== C7 =====

/-- Claim C7, counterexample: a slot-selected reader holding a card yields
a session whose connection type is UNKNOWN with no card-removal observer
registered (unlike the scan path), and with zero available readers a
requested slot 0 (which is ≥ the reader count) does not fail construction —
rescue mode is attempted and can succeed. -/
theorem C7_counterexample :
    initConnect false 0 [true] true = .ok ⟨.UNKNOWN, false, false⟩
    ∧ ConnectionType.UNKNOWN ≠ ConnectionType.SMARTCARD
    ∧ initConnect false 0 [] true = .ok ⟨.RESCUE, true, true⟩ := by
  refine ⟨by decide, by decide, by decide⟩

/-- Claim C7, amended: a non-negative slot index ≥ the reader count fails
construction with the slot-out-of-range error only when at least one reader
is present; an in-range slot whose reader holds a card binds the connection
but leaves the connection type UNKNOWN and registers no card-removal
observer. -/
theorem C7_slot_behavior :
    ∀ (slot : Int) (rdrs : List Bool) (rescueOk : Bool),
    0 ≤ slot →
    (rdrs ≠ [] → (rdrs.length : Int) ≤ slot →
       initConnect false slot rdrs rescueOk = .error .slotOutOfRange)
    ∧ (slot < (rdrs.length : Int) → rdrs.getD slot.toNat false = true →
       initConnect false slot rdrs rescueOk = .ok ⟨.UNKNOWN, false, false⟩) := by
  intro slot rdrs rescueOk hslot
  constructor
  · intro hne hge
    have hlen : 0 < rdrs.length := List.length_pos.mpr hne
    simp [initConnect, hlen, hslot, hge]
  · intro hlt hcard
    have hlen : 0 < rdrs.length := by omega
    have hnge : ¬((rdrs.length : Int) ≤ slot) := by omega
    have hidx : slot.toNat < rdrs.length := by omega
    have hcard2 : rdrs[slot.toNat] = true := by
      have hg := List.getD_eq_getElem rdrs false hidx
      rw [hg] at hcard
      exact hcard
    simp [initConnect, hlen, hslot, hnge, hlt, hcard2]

/-- Claim C7, witness: the amended slot behavior on a two-reader list. -/
theorem C7_slot_behavior_witness :
    initConnect false 2 [true, false] true = .error .slotOutOfRange
    ∧ initConnect false 0 [true, false] true = .ok ⟨.UNKNOWN, false, false⟩ :=
  ⟨(C7_slot_behavior 2 [true, false] true (by decide)).1 (by decide) (by decide),
   (C7_slot_behavior 0 [true, false] true (by decide)).2 (by decide) (by decide)⟩

-- ===== C5 =====

/-- Claim C5, counterexample: send has no branch on the connection type —
when reconnect fails, the Session is closed and the reconnect failure
(a PicoKeyNotFoundError, not the claimed state error) is raised, for
smartcard sessions exactly as for rescue sessions. -/
theorem C5_counterexample :
    sendModel true none false [TxOutcome.raise] (.int 0x02) 0 0 0 none none []
      = (.error .reconnectFailed,
         ⟨[[0x00, 0x02, 0x00, 0x00, 0x00, 0x00, 0x00]], 1, true⟩)
    ∧ (⟨[[0x00, 0x02, 0x00, 0x00, 0x00, 0x00, 0x00]], 1, true⟩ : SendTrace).closed = true
    ∧ SendErr.reconnectFailed ≠ SendErr.invalidState := by
  refine ⟨by decide, by decide, by decide⟩

/-- Claim C5, amended: a transport failure of the first transmit triggers
exactly one reconnect and (when the reconnect succeeds) exactly one retry
of the same frame, after which the call proceeds exactly as an undisturbed
call; a failing retry surfaces the state error without closing; a failing
reconnect closes the Session and raises the reconnect failure — uniformly
for every Session, with no smartcard/rescue distinction. -/
theorem C5_retry_policy :
    ∀ (sc : Option SCm) (rest : List TxOutcome) (cmd : CmdArg) (cla p1 p2 : Nat)
      (ne : Option Nat) (data : Option (List Nat)) (codes : List Nat)
      (apdu0 : List Nat),
    buildApdu cmd cla p1 p2 ne data = some apdu0 →
    (sendModel true sc false (.raise :: rest) cmd cla p1 p2 ne data codes
       = (.error .reconnectFailed, ⟨[wrapWith sc apdu0], 1, true⟩))
    ∧ (sendModel true sc true [TxOutcome.raise] cmd cla p1 p2 ne data codes
       = (.error .invalidState, ⟨[wrapWith sc apdu0, wrapWith sc apdu0], 1, false⟩))
    ∧ (∀ rest2, sendModel true sc true (.raise :: .raise :: rest2) cmd cla p1 p2 ne data codes
       = (.error .invalidState, ⟨[wrapWith sc apdu0, wrapWith sc apdu0], 1, false⟩))
    ∧ (∀ (r : List Nat) (a b : Nat) (rest2 : List TxOutcome),
       (sendModel true sc true (.raise :: .ok r a b :: rest2) cmd cla p1 p2 ne data codes).1
         = (sendModel true sc true (.ok r a b :: rest2) cmd cla p1 p2 ne data codes).1
       ∧ (sendModel true sc true (.raise :: .ok r a b :: rest2) cmd cla p1 p2 ne data codes).2.reconnects = 1
       ∧ (sendModel true sc true (.raise :: .ok r a b :: rest2) cmd cla p1 p2 ne data codes).2.frames.take 2
           = [wrapWith sc apdu0, wrapWith sc apdu0]
       ∧ (sendModel true sc true (.raise :: .ok r a b :: rest2) cmd cla p1 p2 ne data codes).2.closed = false) := by
  intro sc rest cmd cla p1 p2 ne data codes apdu0 hbuild
  refine ⟨?_, ?_, ?_, ?_⟩
  · simp [sendModel, hbuild, firstTransmit]
  · simp [sendModel, hbuild, firstTransmit]
  · intro rest2
    simp [sendModel, hbuild, firstTransmit]
  · intro r a b rest2
    simp only [sendModel, hbuild, firstTransmit, Bool.true_eq_false, if_false]
    cases hps : processStatus codes r a b rest2 with
    | mk res fs =>
      cases res with
      | error e => simp [hps, List.take]
      | ok v => simp [hps, List.take]

-- ===== C4 =====

/-- Helper for claim C4: the GET RESPONSE loop on a script made of a block
of 0x61 replies followed by a terminating reply concatenates the chunk
payloads and emits one frame per iteration whose Le byte is the previous
SW2. -/
theorem getResponse_chain :
    ∀ (chain : List (List Nat × Nat)) (rf : List Nat) (af bf : Nat)
      (rest : List TxOutcome) (sw2 : Nat) (acc : List Nat),
    af ≠ 0x61 →
    getResponse
      (chain.map (fun pw => TxOutcome.ok pw.1 0x61 pw.2) ++ TxOutcome.ok rf af bf :: rest)
      sw2 acc
      = (.ok (acc ++ (chain.map Prod.fst).flatten ++ rf, af, bf),
         (sw2 :: chain.map Prod.snd).map (fun w => [0x00, 0xC0, 0x00, 0x00, w])) := by
  intro chain
  induction chain with
  | nil =>
    intro rf af bf rest sw2 acc haf
    simp [getResponse, haf]
  | cons pw chain ih =>
    intro rf af bf rest sw2 acc haf
    have hrec := ih rf af bf rest pw.2 (acc ++ pw.1) haf
    simp only [List.map_cons, List.cons_append, getResponse, if_pos rfl]
    simp [hrec, List.append_assoc]

/-- Claim C4: when the initial transmit returns SW1 = 0x61, send repeatedly
transmits [0x00, 0xC0, 0x00, 0x00, SW2] (SW2 of the most recent reply)
until SW1 is no longer 0x61; the returned payload is the in-order
concatenation of the payload chunks of the replies obtained during the
chaining exchange (the payload of the initial 0x61 reply itself is
discarded by `response = []`), and the final status word after chaining is
the one evaluated against 0x9000 and the accepted-codes set. -/
theorem C4_chaining :
    ∀ (cmd cla p1 p2 : Nat) (codes : List Nat) (r0 : List Nat) (n0 : Nat)
      (chain : List (List Nat × Nat)) (rf : List Nat) (af bf : Nat)
      (rest : List TxOutcome),
    af ≠ 0x61 →
    ((codes.contains (af <<< 8 ||| bf) = true ∨ (af <<< 8 ||| bf) = 0x9000) →
       sendModel true none true
         (.ok r0 0x61 n0 :: (chain.map (fun pw => TxOutcome.ok pw.1 0x61 pw.2)
            ++ TxOutcome.ok rf af bf :: rest))
         (.int cmd) cla p1 p2 none none codes
       = (.ok ((chain.map Prod.fst).flatten ++ rf, af <<< 8 ||| bf),
          ⟨[cla, cmd, p1, p2, 0x00, 0x00, 0x00]
             :: (n0 :: chain.map Prod.snd).map (fun w => [0x00, 0xC0, 0x00, 0x00, w]),
           0, false⟩))
    ∧ ((codes.contains (af <<< 8 ||| bf) = false ∧ (af <<< 8 ||| bf) ≠ 0x9000) →
       sendModel true none true
         (.ok r0 0x61 n0 :: (chain.map (fun pw => TxOutcome.ok pw.1 0x61 pw.2)
            ++ TxOutcome.ok rf af bf :: rest))
         (.int cmd) cla p1 p2 none none codes
       = (.error (.apduResponse af bf),
          ⟨[cla, cmd, p1, p2, 0x00, 0x00, 0x00]
             :: (n0 :: chain.map Prod.snd).map (fun w => [0x00, 0xC0, 0x00, 0x00, w]),
           0, false⟩)) := by
  intro cmd cla p1 p2 codes r0 n0 chain rf af bf rest haf
  have hgr := getResponse_chain chain rf af bf rest n0 [] haf
  have hb : buildApdu (.int cmd) cla p1 p2 none none
      = some [cla, cmd, p1, p2, 0x00, 0x00, 0x00] := rfl
  have hps : processStatus codes r0 0x61 n0
      (chain.map (fun pw => TxOutcome.ok pw.1 0x61 pw.2) ++ TxOutcome.ok rf af bf :: rest)
      = checkCode codes ((chain.map Prod.fst).flatten ++ rf) af bf
          ((n0 :: chain.map Prod.snd).map (fun w => [0x00, 0xC0, 0x00, 0x00, w])) := by
    simp only [processStatus]
    rw [hgr]
    norm_num
  constructor
  · intro hacc
    have hguard : ¬(codes.contains (af <<< 8 ||| bf) = false
        ∧ (af <<< 8 ||| bf) ≠ 0x9000) := by
      rcases hacc with h | h
      · rintro ⟨h1, h2⟩
        rw [h] at h1
        cases h1
      · rintro ⟨h1, h2⟩
        exact h2 h
    have hck : checkCode codes ((chain.map Prod.fst).flatten ++ rf) af bf
        ((n0 :: chain.map Prod.snd).map (fun w => [0x00, 0xC0, 0x00, 0x00, w]))
        = (.ok ((chain.map Prod.fst).flatten ++ rf, af, bf),
           (n0 :: chain.map Prod.snd).map (fun w => [0x00, 0xC0, 0x00, 0x00, w])) := by
      simp only [checkCode]
      rw [if_neg hguard]
    simp only [sendModel, hb, wrapWith, firstTransmit]
    rw [hps, hck]
    simp [applyUnwrap]
  · intro hrej
    have hguard : codes.contains (af <<< 8 ||| bf) = false
        ∧ (af <<< 8 ||| bf) ≠ 0x9000 := hrej
    have hck : checkCode codes ((chain.map Prod.fst).flatten ++ rf) af bf
        ((n0 :: chain.map Prod.snd).map (fun w => [0x00, 0xC0, 0x00, 0x00, w]))
        = (.error (.apduResponse af bf),
           (n0 :: chain.map Prod.snd).map (fun w => [0x00, 0xC0, 0x00, 0x00, w])) := by
      simp only [checkCode]
      rw [if_pos hguard]
    simp only [sendModel, hb, wrapWith, firstTransmit]
    rw [hps, hck]
    simp

/-- Claim C4, witness: the scenario of the spec — three 0x61 replies with
decreasing SW2 before a final 0x9000 — assembles the chunks in order and
returns status 0x9000. -/
theorem C4_chaining_witness :
    sendModel true none true
      [TxOutcome.ok [9] 0x61 8, .ok [1, 2] 0x61 6, .ok [3, 4] 0x61 4, .ok [5, 6] 0x90 0x00]
      (.int 0x20) 0x00 0x00 0x00 none none []
      = (.ok ([1, 2, 3, 4, 5, 6], 0x9000),
         ⟨[[0x00, 0x20, 0x00, 0x00, 0x00, 0x00, 0x00],
           [0x00, 0xC0, 0x00, 0x00, 8], [0x00, 0xC0, 0x00, 0x00, 6],
           [0x00, 0xC0, 0x00, 0x00, 4]], 0, false⟩) :=
  ((C4_chaining 0x20 0x00 0x00 0x00 [] [9] 8 [([1, 2], 6), ([3, 4], 4)] [5, 6] 0x90 0x00 []
      (by decide)).1 (Or.inr (by decide))).trans (by decide)

-- ===== C2 =====

/-- Helper: checkCode hands back exactly the frame list it was given. -/
theorem checkCode_frames :
    ∀ (codes resp : List Nat) (a b : Nat) (fs : List (List Nat)),
    (checkCode codes resp a b fs).2 = fs := by
  intro codes resp a b fs
  simp only [checkCode]
  split
  · rfl
  · rfl

/-- Helper: every frame the GET RESPONSE loop hands to the transport has the
shape [0x00, 0xC0, 0x00, 0x00, w]. -/
theorem getResponse_frames_shape :
    ∀ (script : List TxOutcome) (sw2 : Nat) (acc : List Nat),
    ∀ f ∈ (getResponse script sw2 acc).2, ∃ w, f = [0x00, 0xC0, 0x00, 0x00, w] := by
  intro script
  induction script with
  | nil =>
    intro sw2 acc f hf
    simp [getResponse] at hf
    exact ⟨sw2, hf⟩
  | cons o rest ih =>
    intro sw2 acc f hf
    cases o with
    | raise =>
      simp [getResponse] at hf
      exact ⟨sw2, hf⟩
    | ok r a b =>
      by_cases ha : a = 0x61
      · simp only [getResponse, ha, if_pos rfl] at hf
        rcases List.mem_cons.mp hf with h | h
        · exact ⟨sw2, h⟩
        · exact ih b (acc ++ r) f h
      · simp [getResponse, ha] at hf
        exact ⟨sw2, hf⟩

/-- Helper: every frame produced by the status-policy phase is a GET
RESPONSE frame. -/
theorem processStatus_frames_shape :
    ∀ (codes resp : List Nat) (sw1 sw2 : Nat) (rest : List TxOutcome),
    ∀ f ∈ (processStatus codes resp sw1 sw2 rest).2,
      ∃ w, f = [0x00, 0xC0, 0x00, 0x00, w] := by
  intro codes resp sw1 sw2 rest f hf
  unfold processStatus at hf
  split at hf
  · split at hf
    · rw [checkCode_frames] at hf
      cases hf
    · split at hf
      · cases hgr : getResponse rest sw2 [] with
        | mk res fs =>
          rw [hgr] at hf
          have hshape : ∀ g ∈ fs, ∃ w, g = [0x00, 0xC0, 0x00, 0x00, w] := by
            have h := getResponse_frames_shape rest sw2 []
            rw [hgr] at h
            exact h
          cases res with
          | error e =>
            simp only at hf
            exact hshape f hf
          | ok v =>
            obtain ⟨r2, a, b⟩ := v
            simp only at hf
            rw [checkCode_frames] at hf
            exact hshape f hf
      · rw [checkCode_frames] at hf
        cases hf
  · cases hf

/-- Helper: the first-transmit phase hands the (wrapped) frame to the
transport once, or twice after a reconnect retry. -/
theorem firstTransmit_frames :
    ∀ (ro : Bool) (script : List TxOutcome) (apdu : List Nat),
    (firstTransmit ro script apdu).2.frames = [apdu]
    ∨ (firstTransmit ro script apdu).2.frames = [apdu, apdu] := by
  intro ro script apdu
  cases script with
  | nil => cases ro <;> simp [firstTransmit]
  | cons o rest =>
    cases o with
    | ok r a b => simp [firstTransmit]
    | raise =>
      cases ro
      · simp [firstTransmit]
      · cases rest with
        | nil => simp [firstTransmit]
        | cons o2 rest2 => cases o2 <;> simp [firstTransmit]

/-- Helper: a successful unwrap step means the returned pair is the
secure-channel unwrap of the raw response, with an accepted code. -/
theorem applyUnwrap_some_ok :
    ∀ (c : SCm) (codes r2 : List Nat) (a b : Nat) (resp : List Nat) (code : Nat),
    applyUnwrap (some c) codes r2 a b = .ok (resp, code) →
    (codes.contains code = true ∨ code = 0x9000) ∧ c.unwrap r2 = (resp, code) := by
  intro c codes r2 a b resp code h
  simp only [applyUnwrap] at h
  split at h
  · cases h
  · next hguard =>
    injection h with h2
    rw [h2] at hguard
    refine ⟨?_, h2 ▸ rfl⟩
    by_cases hcc : codes.contains code = true
    · exact Or.inl hcc
    · right
      by_contra hne
      exact hguard ⟨Bool.not_eq_true _ ▸ hcc, hne⟩

/-- Claim C2, amended: with a Secure Channel installed, the FIRST frame
handed to the transport (and its reconnect retry, which reuses the same
frame) is the wrap_apdu image of the assembled APDU, but the GET RESPONSE
continuation frames are handed over unwrapped; when the call succeeds the
returned pair is the unwrap_rapdu image of the raw (possibly chained)
response and the returned status code is the unwrapped one, checked against
0x9000 and the accepted-codes set — though only after the raw pre-unwrap
status has passed the same check. -/
theorem C2_wrap_unwrap :
    ∀ (sc : SCm) (ro : Bool) (script : List TxOutcome) (cmd : CmdArg)
      (cla p1 p2 : Nat) (ne : Option Nat) (data : Option (List Nat))
      (codes apdu0 : List Nat),
    buildApdu cmd cla p1 p2 ne data = some apdu0 →
    ((sendModel true (some sc) ro script cmd cla p1 p2 ne data codes).2.frames.head?
       = some (sc.wrap apdu0))
    ∧ (∀ f ∈ (sendModel true (some sc) ro script cmd cla p1 p2 ne data codes).2.frames,
        f = sc.wrap apdu0 ∨ ∃ w, f = [0x00, 0xC0, 0x00, 0x00, w])
    ∧ (∀ (resp : List Nat) (code : Nat),
        (sendModel true (some sc) ro script cmd cla p1 p2 ne data codes).1
          = .ok (resp, code) →
        (codes.contains code = true ∨ code = 0x9000)
        ∧ ∃ raw, sc.unwrap raw = (resp, code)) := by
  intro sc ro script cmd cla p1 p2 ne data codes apdu0 hb
  cases hft : firstTransmit ro script (sc.wrap apdu0) with
  | mk res tr =>
    have htr : tr.frames = [sc.wrap apdu0]
        ∨ tr.frames = [sc.wrap apdu0, sc.wrap apdu0] := by
      have h := firstTransmit_frames ro script (sc.wrap apdu0)
      rw [hft] at h
      exact h
    cases res with
    | error e =>
      have hsm : sendModel true (some sc) ro script cmd cla p1 p2 ne data codes
          = (.error e, tr) := by
        simp only [sendModel, hb, wrapWith]
        rw [hft]
        rfl
      refine ⟨?_, ?_, ?_⟩
      · rcases htr with h | h <;> simp [hsm, h]
      · intro f hf
        rw [hsm] at hf
        rcases htr with h | h <;> rw [show (Except.error e, tr).2.frames = tr.frames from rfl, h] at hf <;>
          simp at hf <;> exact Or.inl hf
      · intro resp code hok
        rw [hsm] at hok
        cases hok
    | ok v =>
      obtain ⟨resp0, sw1, sw2, rest⟩ := v
      cases hps : processStatus codes resp0 sw1 sw2 rest with
      | mk res2 fs =>
        have hfs : ∀ f ∈ fs, ∃ w, f = [0x00, 0xC0, 0x00, 0x00, w] := by
          have h := processStatus_frames_shape codes resp0 sw1 sw2 rest
          rw [hps] at h
          exact h
        have hstep : sendModel true (some sc) ro script cmd cla p1 p2 ne data codes
            = (match processStatus codes resp0 sw1 sw2 rest with
               | (.error e, fs) => (.error e, { tr with frames := tr.frames ++ fs })
               | (.ok (r2, a, b), fs) =>
                 (applyUnwrap (some sc) codes r2 a b,
                  { tr with frames := tr.frames ++ fs })) := by
          simp only [sendModel, hb, wrapWith]
          rw [hft]
          rfl
        cases res2 with
        | error e2 =>
          have hsm : sendModel true (some sc) ro script cmd cla p1 p2 ne data codes
              = (.error e2, { tr with frames := tr.frames ++ fs }) := by
            rw [hstep, hps]
          refine ⟨?_, ?_, ?_⟩
          · rcases htr with h | h <;> simp [hsm, h]
          · intro f hf
            rw [hsm] at hf
            rcases List.mem_append.mp hf with hmem | hmem
            · rcases htr with h | h <;> rw [h] at hmem <;> simp at hmem <;> exact Or.inl hmem
            · exact Or.inr (hfs f hmem)
          · intro resp code hok
            rw [hsm] at hok
            cases hok
        | ok v2 =>
          obtain ⟨r2, a, b⟩ := v2
          have hsm : sendModel true (some sc) ro script cmd cla p1 p2 ne data codes
              = (applyUnwrap (some sc) codes r2 a b,
                 { tr with frames := tr.frames ++ fs }) := by
            rw [hstep, hps]
          refine ⟨?_, ?_, ?_⟩
          · rcases htr with h | h <;> simp [hsm, h]
          · intro f hf
            rw [hsm] at hf
            rcases List.mem_append.mp hf with hmem | hmem
            · rcases htr with h | h <;> rw [h] at hmem <;> simp at hmem <;> exact Or.inl hmem
            · exact Or.inr (hfs f hmem)
          · intro resp code hok
            rw [hsm] at hok
            have h := applyUnwrap_some_ok sc codes r2 a b resp code hok
            exact ⟨h.1, ⟨r2, h.2⟩⟩

/-- Concrete SecureChannel used for the C2 statements: wrapping prepends the
marker byte 0xAA; unwrapping reports status 0x9000. -/
def scAA : SCm := ⟨fun l => 0xAA :: l, fun l => (l, 0x9000)⟩

/-- Concrete SecureChannel whose wrap is the identity and whose unwrap
always reports status 0x9000. -/
def scPass : SCm := ⟨fun l => l, fun l => (l, 0x9000)⟩

/-- Claim C2, counterexample: with a wrap that prepends 0xAA, the GET
RESPONSE frame sent during 0x61 chaining is the bare [0, 0xC0, 0, 0, SW2] —
not the wrap image of anything — refuting that every frame is wrapped; and
with an unwrap that reports 0x9000, a raw 0x6F00 reply still raises the RAW
status, refuting that the unwrapped code is the one checked. -/
theorem C2_counterexample :
    ((sendModel true (some scAA) true [TxOutcome.ok [] 0x61 4, .ok [7] 0x90 0x00]
        (.int 0x02) 0x00 0x00 0x00 none none []).2.frames
      = [[0xAA, 0x00, 0x02, 0x00, 0x00, 0x00, 0x00, 0x00], [0x00, 0xC0, 0x00, 0x00, 4]])
    ∧ ¬(∀ f ∈ (sendModel true (some scAA) true [TxOutcome.ok [] 0x61 4, .ok [7] 0x90 0x00]
          (.int 0x02) 0x00 0x00 0x00 none none []).2.frames,
        ∃ raw, f = scAA.wrap raw)
    ∧ (sendModel true (some scPass) true [TxOutcome.ok [] 0x6F 0x00]
        (.int 0x02) 0x00 0x00 0x00 none none []).1
      = .error (.apduResponse 0x6F 0x00) := by
  have hframes : (sendModel true (some scAA) true [TxOutcome.ok [] 0x61 4, .ok [7] 0x90 0x00]
      (.int 0x02) 0x00 0x00 0x00 none none []).2.frames
      = [[0xAA, 0x00, 0x02, 0x00, 0x00, 0x00, 0x00, 0x00], [0x00, 0xC0, 0x00, 0x00, 4]] := by
    decide
  refine ⟨hframes, ?_, by decide⟩
  intro hall
  rw [hframes] at hall
  have h := hall [0x00, 0xC0, 0x00, 0x00, 4] (by simp)
  obtain ⟨raw, hraw⟩ := h
  simp [scAA] at hraw

/-- Claim C2, witness: the first transported frame is the wrapped APDU. -/
theorem C2_wrap_unwrap_witness :
    (sendModel true (some scAA) true [TxOutcome.ok [7] 0x90 0x00]
       (.int 0x02) 0x00 0x00 0x00 none none []).2.frames.head?
      = some (scAA.wrap [0x00, 0x02, 0x00, 0x00, 0x00, 0x00, 0x00]) :=
  (C2_wrap_unwrap scAA true [TxOutcome.ok [7] 0x90 0x00] (.int 0x02) 0x00 0x00 0x00
     none none [] [0x00, 0x02, 0x00, 0x00, 0x00, 0x00, 0x00] (by decide)).1

-- ===== C5 witness =====

/-- Claim C5, witness: retry equivalence and reconnect-failure teardown at
concrete scripts. -/
theorem C5_retry_policy_witness :
    ((sendModel true none true [TxOutcome.raise, .ok [7] 0x90 0x00]
        (.int 0x1E) 0x80 0x00 0x00 none none []).1
      = (sendModel true none true [TxOutcome.ok [7] 0x90 0x00]
          (.int 0x1E) 0x80 0x00 0x00 none none []).1)
    ∧ ((sendModel true none true [TxOutcome.raise, .ok [7] 0x90 0x00]
        (.int 0x1E) 0x80 0x00 0x00 none none []).2.reconnects = 1)
    ∧ (sendModel true none false [TxOutcome.raise]
        (.int 0x1E) 0x80 0x00 0x00 none none []
       = (.error .reconnectFailed,
          ⟨[[0x80, 0x1E, 0x00, 0x00, 0x00, 0x00, 0x00]], 1, true⟩)) :=
  have h := C5_retry_policy none [] (.int 0x1E) 0x80 0x00 0x00 none none []
      [0x80, 0x1E, 0x00, 0x00, 0x00, 0x00, 0x00] (by decide)
  ⟨(h.2.2.2 [7] 0x90 0x00 []).1, (h.2.2.2 [7] 0x90 0x00 []).2.1, h.1⟩

end Picokey
